import Mathlib

/-!
Shallow embedding of the core of the `distributed_task_queue` repository
(Rust sources in `src/`): the task data model and its mutators
(`src/task.rs`), the broker adapter (`src/queue.rs`), the submission
client's polling loop (`src/client.rs`), and the in-process scheduler
(`src/scheduler.rs`).

Modelling conventions:
- `DateTime<Utc>` instants are `Int` seconds since the Unix epoch;
  `chrono` date arithmetic (`date_naive`, `and_hms_opt`, `weekday`)
  is expressed with floor division by 86400.
- `Uuid` identifiers are `Nat`; `to_string` is `toString`.
- u64 arithmetic that can overflow in the source is modelled with an
  explicit `% 2 ^ 64` (release-mode wrapping); the `as i64` cast is
  modelled by `toI64`.
- Fallible operations return their error through an explicit
  `Option TaskError` / `Except TaskError` component; a Rust `&mut self`
  method that errors after partial mutation returns the partially
  mutated record, exactly as the source leaves it.
-/

namespace DTQ

/-- `TaskStatus` from `src/task.rs`. -/
inductive TaskStatus where
  | Pending
  | Running
  | Success
  | Failed
  | Cancelled
  | Scheduled
  | Retrying
deriving DecidableEq, Repr

/-- `TaskPriority` from `src/task.rs`. -/
inductive TaskPriority where
  | Low
  | Normal
  | High
  | Critical
deriving DecidableEq, Repr

/-- The discriminant values `Low=0, Normal=5, High=10, Critical=15`
used as the sorted-set score (`task_def.priority.clone() as i32`). -/
def priorityScore : TaskPriority → Int
  | .Low => 0
  | .Normal => 5
  | .High => 10
  | .Critical => 15

/-- `RetryConfig` from `src/task.rs` (`max_retries : u32`, delays `u64`). -/
structure RetryConfig where
  max_retries : Nat
  retry_delay : Nat
  exponential_backoff : Bool
  max_delay : Nat
deriving DecidableEq, Repr

/-- `RetryConfig::default()`. -/
def RetryConfig.default : RetryConfig :=
  { max_retries := 3, retry_delay := 5, exponential_backoff := true, max_delay := 300 }

/-- The error variants of `TaskError` (`src/error.rs`) reachable from the
embedded operations. -/
inductive TaskError where
  | Serialization
  | TaskExecution (message : String)
  | TaskNotFound (task_id : String)
  | QueueOperation (operation reason : String)
  | Timeout (operation : String)
  | RetryLimitExceeded (task_id : String) (max_retries : Nat)
deriving DecidableEq, Repr

/-- `TaskDefinition` from `src/task.rs`. -/
structure TaskDefinition where
  id : Nat
  name : String
  data : String
  priority : TaskPriority
  status : TaskStatus
  retry_config : RetryConfig
  retry_count : Nat
  created_at : Int
  updated_at : Int
  scheduled_at : Option Int
  started_at : Option Int
  finished_at : Option Int
  result : Option String
  error : Option String
  queue : String
  worker_id : Option String
  estimated_duration : Option Nat
deriving DecidableEq, Repr

/-- The `u64 as i64` cast. -/
def toI64 (x : Nat) : Int :=
  if x < 2 ^ 63 then (x : Int) else (x : Int) - 2 ^ 64

/-- `TaskDefinition::mark_started` (`src/task.rs` lines 187-192): set
status `Running`, stamp `started_at` and `updated_at` with the current
time, record the worker id. -/
def mark_started (t : TaskDefinition) (now : Int) (worker_id : String) : TaskDefinition :=
  { t with
    status := .Running
    started_at := some now
    updated_at := now
    worker_id := some worker_id }

/-- `TaskDefinition::mark_success` (`src/task.rs` lines 195-204).
`ser` is the outcome of `serde_json::to_string(result)` (`none` = a
serialization error).  The source mutates `status`, `finished_at` and
`updated_at` *before* the fallible serialization, so on error the
record keeps those mutations while `result` is left unchanged, and the
method returns the serialization error. -/
def mark_success (t : TaskDefinition) (now : Int) (ser : Option String) :
    TaskDefinition × Option TaskError :=
  let t1 : TaskDefinition :=
    { t with status := .Success, finished_at := some now, updated_at := now }
  match ser with
  | some s => ({ t1 with result := some s }, none)
  | none => (t1, some .Serialization)

/-- `TaskDefinition::mark_failed` (`src/task.rs` lines 207-212). -/
def mark_failed (t : TaskDefinition) (now : Int) (error : String) : TaskDefinition :=
  { t with
    status := .Failed
    finished_at := some now
    updated_at := now
    error := some error }

/-- `TaskDefinition::mark_retry` (`src/task.rs` lines 215-240).  On
`retry_count ≥ max_retries` it returns `RetryLimitExceeded` before any
mutation.  Otherwise it bumps `retry_count`, sets status `Retrying`,
clears the execution fields and schedules the next attempt after the
backoff delay.  `retry_delay * 2_u64.pow(retry_count - 1)` is u64
arithmetic, hence the `% 2 ^ 64`; `delay as i64` is `toI64`. -/
def mark_retry (t : TaskDefinition) (now : Int) : TaskDefinition × Option TaskError :=
  if t.retry_config.max_retries ≤ t.retry_count then
    (t, some (.RetryLimitExceeded (toString t.id) t.retry_config.max_retries))
  else
    let rc := t.retry_count + 1
    let delay :=
      if t.retry_config.exponential_backoff then
        min ((t.retry_config.retry_delay * 2 ^ (rc - 1)) % 2 ^ 64) t.retry_config.max_delay
      else
        t.retry_config.retry_delay
    ({ t with
        retry_count := rc
        status := .Retrying
        updated_at := now
        started_at := none
        finished_at := none
        worker_id := none
        scheduled_at := some (now + toI64 delay) }, none)

/-- `TaskDefinition::can_retry` (`src/task.rs` lines 243-245). -/
def can_retry (t : TaskDefinition) : Bool :=
  t.retry_count < t.retry_config.max_retries

/-- The spec's status invariants (§3 of the specification):
`Running` implies `started_at` and `worker_id` set, `Success` implies
`result` and `finished_at` set, `Failed` implies `error` and
`finished_at` set. -/
def StatusInvariant (t : TaskDefinition) : Prop :=
  (t.status = .Running → t.started_at.isSome ∧ t.worker_id.isSome) ∧
  (t.status = .Success → t.result.isSome ∧ t.finished_at.isSome) ∧
  (t.status = .Failed → t.error.isSome ∧ t.finished_at.isSome)

instance (t : TaskDefinition) : Decidable (StatusInvariant t) := by
  unfold StatusInvariant; infer_instance

/-- The spec's per-attempt backoff delay formula for the attempt that
`mark_retry` schedules: attempt `k = retry_count + 1`, delay
`exponential ? min(base · 2 ^ (k - 1), max_delay) : base`. -/
def specRetryDelay (t : TaskDefinition) : Nat :=
  if t.retry_config.exponential_backoff then
    min (t.retry_config.retry_delay * 2 ^ t.retry_count) t.retry_config.max_delay
  else
    t.retry_config.retry_delay

/-- A pending task with the default retry configuration, used as a
concrete evaluation point. -/
def samplePendingTask : TaskDefinition :=
  { id := 42
    name := "AddTask"
    data := "payload"
    priority := .Normal
    status := .Pending
    retry_config := RetryConfig.default
    retry_count := 0
    created_at := 0
    updated_at := 0
    scheduled_at := none
    started_at := none
    finished_at := none
    result := none
    error := none
    queue := "math"
    worker_id := none
    estimated_duration := none }

/-- A running task (claimed by worker `w1` at time 1) whose `result` is
still unset; it satisfies the status invariants. -/
def sampleRunningTask : TaskDefinition :=
  { samplePendingTask with
    status := .Running
    started_at := some 1
    updated_at := 1
    worker_id := some "w1" }

/-- A task that has exhausted its retry budget. -/
def exhaustedTask : TaskDefinition :=
  { samplePendingTask with retry_count := 3 }

/-- A task on its 64th retry with exponential backoff: the u64 product
`4 * 2 ^ 63` wraps to 0 in the source. -/
def overflowTask : TaskDefinition :=
  { samplePendingTask with
    retry_count := 63
    retry_config :=
      { max_retries := 100, retry_delay := 4, exponential_backoff := true, max_delay := 300 } }

/-! ### Broker adapter (`src/queue.rs`)

The broker's logical stores are modelled directly: an ordered set is a
list of `(score, member)` pairs where a member is the (deserialized)
task record — `serde_json` serialization is injective on records, so
member equality is record equality.  `zadd` follows Redis semantics:
re-adding an existing member updates its score. -/

/-- One Redis sorted set: `(score, member)` pairs. -/
abbrev ZSet := List (Int × TaskDefinition)

/-- `ZADD`: insert a member with a score, or update the score of an
existing member. -/
def zadd (s : ZSet) (score : Int) (member : TaskDefinition) : ZSet :=
  if s.any fun p => p.2 == member then
    s.map fun p => if p.2 == member then (score, member) else p
  else
    (score, member) :: s

/-- `HSET dtq:queue:task:<id> data <json>`: the `task:<id>` lookup
index, an association from task id to latest record. -/
def hsetTask (idx : List (Nat × TaskDefinition)) (id : Nat) (t : TaskDefinition) :
    List (Nat × TaskDefinition) :=
  if idx.any fun p => p.1 == id then
    idx.map fun p => if p.1 == id then (id, t) else p
  else
    (id, t) :: idx

/-- The broker state owned by `TaskQueue`: per-queue priority sets
(`dtq:queue:<name>`), the global `dtq:scheduled` and `dtq:processing`
sets, and the `dtq:queue:task:<id>` index. -/
structure Broker where
  queues : List (String × ZSet)
  scheduled : ZSet
  processing : ZSet
  taskIndex : List (Nat × TaskDefinition)
deriving DecidableEq, Repr

/-- Look up a queue's sorted set (a missing Redis key is the empty set). -/
def lookupQueue (qs : List (String × ZSet)) (name : String) : ZSet :=
  ((qs.find? fun p => p.1 == name).map Prod.snd).getD []

/-- Replace (or create) a queue's sorted set. -/
def setQueue (qs : List (String × ZSet)) (name : String) (s : ZSet) :
    List (String × ZSet) :=
  if qs.any fun p => p.1 == name then
    qs.map fun p => if p.1 == name then (name, s) else p
  else
    (name, s) :: qs

/-- The default-queue substitution at the top of
`TaskQueue::submit_task` / `submit_scheduled_task`
(`src/queue.rs` lines 114-116 and 145-147): if the record's queue name
is empty, replace it with the configured default queue.  No other
field — in particular not `updated_at` — is touched. -/
def substituteDefaultQueue (default_queue : String) (t : TaskDefinition) : TaskDefinition :=
  if t.queue = "" then { t with queue := default_queue } else t

/-- `TaskQueue::submit_task` (`src/queue.rs` lines 110-139): substitute
the default queue if needed, then atomically `ZADD` the record into
`dtq:queue:<queue>` scored by priority and `HSET` the `task:<id>`
index.  Returns the task id. -/
def submit_task (default_queue : String) (t : TaskDefinition) (b : Broker) :
    Broker × Except TaskError Nat :=
  ({ b with
      queues := setQueue b.queues (substituteDefaultQueue default_queue t).queue
        (zadd (lookupQueue b.queues (substituteDefaultQueue default_queue t).queue)
          (priorityScore (substituteDefaultQueue default_queue t).priority)
          (substituteDefaultQueue default_queue t))
      taskIndex := hsetTask b.taskIndex (substituteDefaultQueue default_queue t).id
        (substituteDefaultQueue default_queue t) },
    .ok (substituteDefaultQueue default_queue t).id)

/-- `TaskQueue::submit_scheduled_task` (`src/queue.rs` lines 142-171):
requires `scheduled_at` to be set (otherwise a
`QueueOperation("submit_scheduled", "missing scheduled_at")` error with
no broker writes); on success, `ZADD` into `dtq:scheduled` scored by
the `scheduled_at` timestamp plus the `task:<id>` index write. -/
def submit_scheduled_task (default_queue : String) (t : TaskDefinition) (b : Broker) :
    Broker × Except TaskError Nat :=
  match (substituteDefaultQueue default_queue t).scheduled_at with
  | none => (b, .error (.QueueOperation "submit_scheduled" "missing scheduled_at"))
  | some ts =>
      ({ b with
          scheduled := zadd b.scheduled ts (substituteDefaultQueue default_queue t)
          taskIndex := hsetTask b.taskIndex (substituteDefaultQueue default_queue t).id
            (substituteDefaultQueue default_queue t) },
        .ok (substituteDefaultQueue default_queue t).id)

/-- `TaskQueue::requeue_task` (`src/queue.rs` lines 320-329): submit
through the scheduled path when `scheduled_at` is set, else through the
plain path; the `processing` set is not touched. -/
def requeue_task (default_queue : String) (t : TaskDefinition) (b : Broker) :
    Broker × Except TaskError Unit :=
  if t.scheduled_at.isSome then
    let p := submit_scheduled_task default_queue t b
    (p.1, p.2.map fun _ => ())
  else
    let p := submit_task default_queue t b
    (p.1, p.2.map fun _ => ())

/-- `TaskQueue::get_task` (`src/queue.rs` lines 332-349): read the
`task:<id>` index. -/
def get_task (b : Broker) (task_id : Nat) : Option TaskDefinition :=
  ((b.taskIndex.find? fun p => p.1 == task_id).map Prod.snd)

/-! ### Submission client (`src/client.rs`) -/

/-- `TaskDefinition::new` (`src/task.rs` lines 145-169), as invoked by
the client: a fresh record with status `Pending`, zero retries,
`created_at = updated_at = now` and all optional fields unset.  The
fresh uuid, the serialized payload and the task's own
name/priority/retry configuration are parameters. -/
def newTaskDefinition (id : Nat) (name data : String) (priority : TaskPriority)
    (rc : RetryConfig) (estimated : Option Nat) (queue : String) (now : Int) :
    TaskDefinition :=
  { id := id
    name := name
    data := data
    priority := priority
    status := .Pending
    retry_config := rc
    retry_count := 0
    created_at := now
    updated_at := now
    scheduled_at := none
    started_at := none
    finished_at := none
    result := none
    error := none
    queue := queue
    worker_id := none
    estimated_duration := estimated }

/-- The record built by `TaskClient::submit_with_priority`
(`src/client.rs` lines 53-65) just before it is handed to the broker:
`TaskDefinition::new` followed by the in-place priority override
`task_def.priority = priority`. -/
def submitWithPriorityRecord (id : Nat) (name data : String) (taskPriority : TaskPriority)
    (rc : RetryConfig) (estimated : Option Nat) (queue : String) (now : Int)
    (priority : TaskPriority) : TaskDefinition :=
  { newTaskDefinition id name data taskPriority rc estimated queue now with
    priority := priority }

/-- One poll of `TaskClient::wait_for_result` (`src/client.rs` lines
137-163), as a function of what `get_task` returned: `some r` means the
loop returns with `r`; `none` means the loop sleeps 500 ms and polls
again. -/
def wait_step (task_id : Nat) (fetched : Option TaskDefinition) :
    Option (Except TaskError String) :=
  match fetched with
  | some td =>
      match td.status with
      | .Success =>
          match td.result with
          | some result_json => some (.ok result_json)
          | none => some (.error (.TaskExecution "Task completed but no result found"))
      | .Failed => some (.error (.TaskExecution (td.error.getD "Unknown error")))
      | .Cancelled => some (.error (.TaskExecution "Task was cancelled"))
      | _ => none
  | none => some (.error (.TaskNotFound (toString task_id)))

/-- The polling loop of `wait_for_result` (no timeout), over a trace
`fetch` giving the record `get_task` returns at each poll, with fuel
bounding the number of polls observed: `none` means the loop was still
polling after `fuel` polls. -/
def waitPolls (task_id : Nat) (fetch : Nat → Option TaskDefinition) :
    Nat → Nat → Option (Except TaskError String)
  | _, 0 => none
  | i, fuel + 1 =>
      match wait_step task_id (fetch i) with
      | some r => some r
      | none => waitPolls task_id fetch (i + 1) fuel

/-- `TaskClient::wait_for_result` with the deserialization
`serde_json::from_str::<T>` of the raw result applied, modelled by an
abstract decoder `dec` (decoding failure surfaces as a serialization
error, through the `?` on `from_str`). -/
def wait_for_result {α : Type} (dec : String → Option α) (task_id : Nat)
    (fetch : Nat → Option TaskDefinition) (fuel : Nat) : Option (Except TaskError α) :=
  (waitPolls task_id fetch 0 fuel).map fun r =>
    match r with
    | .ok s =>
        match dec s with
        | some v => .ok v
        | none => .error .Serialization
    | .error e => .error e

/-- The four task states the polling loop keeps waiting on (the `_`
branch of the `match` in `wait_for_result`). -/
def nonTerminal (s : TaskStatus) : Bool :=
  match s with
  | .Pending | .Running | .Scheduled | .Retrying => true
  | _ => false

/-! ### Scheduler (`src/scheduler.rs`) -/

/-- `ScheduleExpression` from `src/scheduler.rs`.  `Once` carries an
instant; the numeric variants carry u64 counts; `Daily`/`Weekly` carry
u32 clock fields (`day` uses 0 = Sunday). -/
inductive ScheduleExpression where
  | Once (time : Int)
  | Delay (seconds : Nat)
  | EverySeconds (seconds : Nat)
  | EveryMinutes (minutes : Nat)
  | EveryHours (hours : Nat)
  | Daily (hour minute : Nat)
  | Weekly (day hour minute : Nat)
  | Cron (expr : String)
deriving DecidableEq, Repr

/-- Midnight (00:00:00 UTC) of the calendar day containing instant `t`:
`from.date_naive()` re-anchored at the start of day. -/
def startOfDay (t : Int) : Int := t - t % 86400

/-- `from.weekday().num_days_from_sunday()`: the Unix epoch
(1970-01-01) was a Thursday, so day-of-week with Sunday = 0 is
`(days_since_epoch + 4) mod 7`. -/
def num_days_from_sunday (t : Int) : Nat := ((t / 86400 + 4) % 7).toNat

/-- `date_naive().and_hms_opt(hour, minute, 0)` re-anchored to UTC:
valid only for `hour < 24` and `minute < 60` (else `None`). -/
def and_hms (t : Int) (hour minute : Nat) : Option Int :=
  if hour < 24 ∧ minute < 60 then
    some (startOfDay t + (hour : Int) * 3600 + (minute : Int) * 60)
  else
    none

/-- `ScheduleExpression::next_execution` (`src/scheduler.rs` lines
42-100).  The u64 counts of `Delay` / `EverySeconds` / `EveryMinutes` /
`EveryHours` pass through an `as i64` cast (`toI64`) before the
`chrono::Duration` constructors. -/
def next_execution (e : ScheduleExpression) (t : Int) : Option Int :=
  match e with
  | .Once time => if time > t then some time else none
  | .Delay seconds => some (t + toI64 seconds)
  | .EverySeconds seconds => some (t + toI64 seconds)
  | .EveryMinutes minutes => some (t + toI64 minutes * 60)
  | .EveryHours hours => some (t + toI64 hours * 3600)
  | .Daily hour minute =>
      match and_hms t hour minute with
      | none => none
      | some base => some (if base ≤ t then base + 86400 else base)
  | .Weekly day hour minute =>
      let current_day := num_days_from_sunday t
      let days_until_target :=
        if current_day ≤ day then day - current_day else 7 - (current_day - day)
      match and_hms t hour minute with
      | none => none
      | some base =>
          let next := base + (days_until_target : Int) * 86400
          some (if next ≤ t then next + 604800 else next)
  | .Cron _ => none

/-- `ScheduleExpression::is_recurring` (`src/scheduler.rs` lines
103-113): every variant except `Once` and `Delay`, including `Cron`. -/
def is_recurring (e : ScheduleExpression) : Bool :=
  match e with
  | .EverySeconds _ | .EveryMinutes _ | .EveryHours _
  | .Daily _ _ | .Weekly _ _ _ | .Cron _ => true
  | _ => false

/-- The one-shot variants named by the spec (`Once`, `Delay`). -/
def isOnceOrDelay (e : ScheduleExpression) : Bool :=
  match e with
  | .Once _ | .Delay _ => true
  | _ => false

/-- Validity bounds under which the claimed per-variant table is
well-defined: clock fields in range for `Daily`/`Weekly`, `day` in
`[0,6]` for `Weekly`, and u64 counts small enough that the `as i64`
cast in the source is exact. -/
def validSchedule (e : ScheduleExpression) : Bool :=
  match e with
  | .Once _ => true
  | .Delay s => s < 2 ^ 63
  | .EverySeconds s => s < 2 ^ 63
  | .EveryMinutes m => m < 2 ^ 63
  | .EveryHours h => h < 2 ^ 63
  | .Daily h m => h < 24 && m < 60
  | .Weekly d h m => d ≤ 6 && h < 24 && m < 60
  | .Cron _ => true

/-- The claimed per-variant next-run table, written from the spec's
words (§4.4): `Once(u)` fires at `u` only if still in the future; the
numeric variants add that many units to `t`; `Daily` fires today at
`h:m:00` UTC if that is still in the future, else tomorrow; `Weekly`
computes the days-ahead in `[0,6]` to the requested weekday (the unique
`a` with `dow(t) + a ≡ dow (mod 7)`), fires that date at `h:m:00` UTC,
and adds seven days if that instant is not after `t`; `Cron` is
unimplemented. -/
def specNextExecution (e : ScheduleExpression) (t : Int) : Option Int :=
  match e with
  | .Once u => if u > t then some u else none
  | .Delay s => some (t + (s : Int))
  | .EverySeconds n => some (t + (n : Int))
  | .EveryMinutes n => some (t + (n : Int) * 60)
  | .EveryHours n => some (t + (n : Int) * 3600)
  | .Daily h m =>
      let today := startOfDay t + (h : Int) * 3600 + (m : Int) * 60
      if today > t then some today else some (today + 86400)
  | .Weekly d h m =>
      let ahead : Nat := (d + 7 - num_days_from_sunday t) % 7
      let that_day := startOfDay t + (ahead : Int) * 86400 + (h : Int) * 3600 + (m : Int) * 60
      if that_day ≤ t then some (that_day + 7 * 86400) else some that_day
  | .Cron _ => none

/-- `ScheduledJob` from `src/scheduler.rs`. -/
structure ScheduledJob where
  id : Nat
  name : String
  task_type : String
  task_data : String
  queue : String
  priority : TaskPriority
  schedule : ScheduleExpression
  enabled : Bool
  max_retries : Nat
  next_run : Option Int
  last_run : Option Int
  run_count : Nat
  failure_count : Nat
  created_at : Int
  updated_at : Int
deriving DecidableEq, Repr

/-- `ScheduledJob::mark_executed` (`src/scheduler.rs` lines 192-209):
stamp `last_run` and `updated_at`, bump `run_count` (and
`failure_count` on failure), then recompute `next_run` for a recurring
schedule or exhaust and disable a one-shot job. -/
def mark_executed (j : ScheduledJob) (now : Int) (success : Bool) : ScheduledJob :=
  let j1 : ScheduledJob :=
    { j with
      last_run := some now
      run_count := j.run_count + 1
      updated_at := now
      failure_count := if success then j.failure_count else j.failure_count + 1 }
  if is_recurring j.schedule then
    { j1 with next_run := next_execution j.schedule now }
  else
    { j1 with next_run := none, enabled := false }

/-- The scheduler's in-process jobs map (`jobs: HashMap<ScheduledJobId,
ScheduledJob>`), as an association list keyed by job id. -/
abbrev JobsMap := List (Nat × ScheduledJob)

/-- `HashMap::insert` on the jobs map. -/
def insertJob (jobs : JobsMap) (id : Nat) (j : ScheduledJob) : JobsMap :=
  if jobs.any fun p => p.1 == id then
    jobs.map fun p => if p.1 == id then (id, j) else p
  else
    (id, j) :: jobs

/-- `HashMap::remove` on the jobs map. -/
def removeJob (jobs : JobsMap) (id : Nat) : JobsMap :=
  jobs.filter fun p => p.1 != id

/-- `TaskScheduler::get_job` (`src/scheduler.rs` lines 283-286). -/
def lookupJob (jobs : JobsMap) (id : Nat) : Option ScheduledJob :=
  (jobs.find? fun p => p.1 == id).map Prod.snd

/-- `TaskScheduler::list_jobs` (`src/scheduler.rs` lines 289-292). -/
def listJobs (jobs : JobsMap) : List ScheduledJob := jobs.map Prod.snd

/-- The job-count component of `TaskScheduler::get_stats`
(`src/scheduler.rs` lines 407-439): `total_jobs = jobs.len()`. -/
def schedulerTotalJobs (jobs : JobsMap) : Nat := jobs.length

/-- The per-job update step of `TaskScheduler::process_ready_jobs`
(`src/scheduler.rs` lines 337-354) after firing job `j`: mark it
executed, then re-insert it under its id if it is still enabled or its
schedule is recurring, else remove it from the map entirely. -/
def processJobUpdate (jobs : JobsMap) (j : ScheduledJob) (now : Int) (success : Bool) :
    JobsMap :=
  let j2 := mark_executed j now success
  if j2.enabled || is_recurring j2.schedule then
    insertJob jobs j.id j2
  else
    removeJob jobs j.id

/-- A concrete one-shot (non-recurring) scheduled job. -/
def sampleOnceJob : ScheduledJob :=
  { id := 7
    name := "once"
    task_type := "AddTask"
    task_data := "payload"
    queue := "math"
    priority := .Normal
    schedule := .Once 100
    enabled := true
    max_retries := 3
    next_run := some 100
    last_run := none
    run_count := 0
    failure_count := 0
    created_at := 0
    updated_at := 0 }

/-- A task record whose queue name is empty, as accepted by
`TaskQueue::submit_task`. -/
def emptyQueueTask : TaskDefinition :=
  { samplePendingTask with queue := "" }

/-- A record in `Success` state whose `result` field is unset. -/
def successNoResultTask : TaskDefinition :=
  { samplePendingTask with status := .Success }

/-! ## Theorems -/

/-- Helper: `submit_task` never touches the `processing` set. -/
theorem submit_task_processing (dq : String) (t : TaskDefinition) (b : Broker) :
    (submit_task dq t b).1.processing = b.processing := rfl

/-- Helper: `submit_scheduled_task` never touches the `processing` set. -/
theorem submit_scheduled_task_processing (dq : String) (t : TaskDefinition) (b : Broker) :
    (submit_scheduled_task dq t b).1.processing = b.processing := by
  unfold submit_scheduled_task
  cases (substituteDefaultQueue dq t).scheduled_at with
  | none => rfl
  | some ts => rfl

/-- Helper: the computed day-of-week is in `[0,6]`. -/
theorem num_days_from_sunday_lt (t : Int) : num_days_from_sunday t < 7 := by
  unfold num_days_from_sunday
  have h1 : (0 : Int) ≤ (t / 86400 + 4) % 7 := Int.emod_nonneg _ (by decide)
  have h2 : (t / 86400 + 4) % 7 < 7 := Int.emod_lt_of_pos _ (by decide)
  omega

/-- Helper: the successful branch of `mark_retry`, characterized. -/
theorem mark_retry_of_lt (t : TaskDefinition) (now : Int)
    (h : t.retry_count < t.retry_config.max_retries) :
    mark_retry t now =
      ({ t with
          retry_count := t.retry_count + 1
          status := .Retrying
          updated_at := now
          started_at := none
          finished_at := none
          worker_id := none
          scheduled_at := some (now + toI64
            (if t.retry_config.exponential_backoff then
              min ((t.retry_config.retry_delay * 2 ^ t.retry_count) % 2 ^ 64)
                t.retry_config.max_delay
            else
              t.retry_config.retry_delay)) }, none) := by
  unfold mark_retry
  rw [if_neg (Nat.not_le.mpr h)]
  simp

/-- C1 (amended): `mark_started`, `mark_failed` and `mark_retry`
preserve the status invariants, and so does `mark_success` whenever the
serialization of the output succeeds.  (When it fails, the invariants
break — see the counterexample.) -/
theorem task_invariants_preserved (t : TaskDefinition) (now : Int)
    (w e : String) (ser : Option String) (hinv : StatusInvariant t) :
    StatusInvariant (mark_started t now w) ∧
    (ser.isSome → StatusInvariant (mark_success t now ser).1) ∧
    StatusInvariant (mark_failed t now e) ∧
    StatusInvariant (mark_retry t now).1 := by
  refine ⟨?_, ?_, ?_, ?_⟩
  · unfold mark_started StatusInvariant
    simp
  · intro hs
    cases ser with
    | none => simp at hs
    | some s =>
        unfold mark_success StatusInvariant
        simp
  · unfold mark_failed StatusInvariant
    simp
  · by_cases h : t.retry_count < t.retry_config.max_retries
    · rw [mark_retry_of_lt t now h]
      unfold StatusInvariant
      simp
    · unfold mark_retry
      rw [if_pos (Nat.le_of_not_lt h)]
      exact hinv

/-- Witness for `task_invariants_preserved` at a concrete running task. -/
theorem task_invariants_preserved_witness :
    StatusInvariant sampleRunningTask ∧
    StatusInvariant (mark_started sampleRunningTask 2 "w2") ∧
    StatusInvariant (mark_success sampleRunningTask 2 (some "5")).1 ∧
    StatusInvariant (mark_failed sampleRunningTask 2 "boom") ∧
    StatusInvariant (mark_retry sampleRunningTask 2).1 := by
  have h := task_invariants_preserved sampleRunningTask 2 "w2" "boom" (some "5") (by decide)
  exact ⟨by decide, h.1, h.2.1 (by decide), h.2.2.1, h.2.2.2⟩

/-- C1 counterexample: starting from a running task that satisfies the
invariants, `mark_success` applied to an output whose serialization
fails leaves a record with `status = Success` and `result = None`,
violating the `Success ⇒ result set` invariant. -/
theorem mark_success_serialization_cex :
    StatusInvariant sampleRunningTask ∧
    (mark_success sampleRunningTask 2 none).1.status = TaskStatus.Success ∧
    (mark_success sampleRunningTask 2 none).1.result = none ∧
    (mark_success sampleRunningTask 2 none).2 = some TaskError.Serialization ∧
    ¬ StatusInvariant (mark_success sampleRunningTask 2 none).1 := by
  decide

/-- C2 (amended): for a task with `retry_count < max_retries`,
`mark_retry` succeeds, bumps `retry_count` to `k = retry_count + 1 ≥ 1`,
sets status `Retrying`, clears `started_at`, `finished_at` and
`worker_id`, and sets `scheduled_at = now + delay` with
`delay = exponential ? min(base · 2^(k-1), max_delay) : base` —
provided the u64 product `base · 2^(k-1)` does not overflow and the
resulting delay fits in an i64 (the source computes the product in
wrapping u64 arithmetic and casts the delay with `as i64`). -/
theorem mark_retry_backoff (t : TaskDefinition) (now : Int)
    (h1 : t.retry_count < t.retry_config.max_retries)
    (h2 : t.retry_config.exponential_backoff = true →
        t.retry_config.retry_delay * 2 ^ t.retry_count < 2 ^ 64)
    (h3 : specRetryDelay t < 2 ^ 63) :
    (mark_retry t now).2 = none ∧
    (mark_retry t now).1.retry_count = t.retry_count + 1 ∧
    1 ≤ (mark_retry t now).1.retry_count ∧
    (mark_retry t now).1.status = TaskStatus.Retrying ∧
    (mark_retry t now).1.started_at = none ∧
    (mark_retry t now).1.finished_at = none ∧
    (mark_retry t now).1.worker_id = none ∧
    (mark_retry t now).1.scheduled_at = some (now + (specRetryDelay t : Int)) := by
  have hdelay : (if t.retry_config.exponential_backoff then
        min ((t.retry_config.retry_delay * 2 ^ t.retry_count) % 2 ^ 64)
          t.retry_config.max_delay
      else
        t.retry_config.retry_delay) = specRetryDelay t := by
    unfold specRetryDelay
    cases hexp : t.retry_config.exponential_backoff with
    | false => simp
    | true =>
        have ha := h2 hexp
        simp only [if_pos rfl]
        rw [Nat.mod_eq_of_lt ha]
  have hfit : toI64 (specRetryDelay t) = (specRetryDelay t : Int) := by
    unfold toI64
    rw [if_pos h3]
  rw [mark_retry_of_lt t now h1]
  refine ⟨rfl, rfl, Nat.le_add_left 1 _, rfl, rfl, rfl, rfl, ?_⟩
  simp only [hdelay, hfit]

/-- Witness for `mark_retry_backoff`: the default retry configuration
(base 5 s, exponential, cap 300 s) at the first retry. -/
theorem mark_retry_backoff_witness :
    (mark_retry samplePendingTask 10).2 = none ∧
    (mark_retry samplePendingTask 10).1.scheduled_at =
      some (10 + (specRetryDelay samplePendingTask : Int)) := by
  have h := mark_retry_backoff samplePendingTask 10 (by decide) (fun _ => by decide) (by decide)
  exact ⟨h.1, h.2.2.2.2.2.2.2⟩

/-- C2 counterexample: a task on its 64th retry (`retry_count = 63`,
`base_delay = 4`, exponential, `max_delay = 300`, `max_retries = 100`).
The source computes the u64 product `4 * 2^63`, which wraps to 0, so
the task is rescheduled with zero delay (`scheduled_at = now`), while
the claimed formula gives `min(4 · 2^63, 300) = 300` seconds. -/
theorem mark_retry_overflow_cex :
    (mark_retry overflowTask 5).2 = none ∧
    (mark_retry overflowTask 5).1.scheduled_at = some 5 ∧
    (5 : Int) + ((min (overflowTask.retry_config.retry_delay * 2 ^ overflowTask.retry_count)
        overflowTask.retry_config.max_delay : Nat) : Int) = 305 ∧
    (mark_retry overflowTask 5).1.scheduled_at ≠ some 305 := by
  decide

/-- C3: `mark_retry` returns `RetryLimitExceeded` — carrying the
rendered task id and the configured `max_retries` — exactly when
`retry_count ≥ max_retries` at the call, it never returns any other
error, and in the error case the record is returned with every field
unchanged. -/
theorem mark_retry_limit_iff (t : TaskDefinition) (now : Int) :
    ((mark_retry t now).2 =
        some (TaskError.RetryLimitExceeded (toString t.id) t.retry_config.max_retries) ↔
      t.retry_config.max_retries ≤ t.retry_count) ∧
    ((mark_retry t now).2 = none ↔ t.retry_count < t.retry_config.max_retries) ∧
    (t.retry_config.max_retries ≤ t.retry_count → (mark_retry t now).1 = t) := by
  by_cases h : t.retry_count < t.retry_config.max_retries
  · rw [mark_retry_of_lt t now h]
    refine ⟨⟨fun hx => by simp at hx, fun hx => absurd hx (Nat.not_le.mpr h)⟩, ?_, ?_⟩
    · exact ⟨fun _ => h, fun _ => rfl⟩
    · intro hx
      exact absurd hx (Nat.not_le.mpr h)
  · have hge := Nat.le_of_not_lt h
    unfold mark_retry
    rw [if_pos hge]
    refine ⟨⟨fun _ => hge, fun _ => rfl⟩, ⟨fun hx => by simp at hx, fun hx => absurd hx h⟩, ?_⟩
    intro _
    rfl

/-- Witness for `mark_retry_limit_iff` at a task with
`retry_count = max_retries = 3`. -/
theorem mark_retry_limit_iff_witness :
    (mark_retry exhaustedTask 7).2 = some (TaskError.RetryLimitExceeded "42" 3) ∧
    (mark_retry exhaustedTask 7).1 = exhaustedTask := by
  have h := mark_retry_limit_iff exhaustedTask 7
  exact ⟨by
    have := (h.1).mpr (by decide)
    simpa using this, h.2.2 (by decide)⟩

/-- C4 (amended): none of the record-modifying operations — the four
`mark_*` mutators, the client's priority override in
`submit_with_priority`, and `submit_task`'s default-queue substitution
— ever changes `id` or `created_at`.  The `mark_*` mutators stamp
`updated_at` with the operation time (a failing `mark_retry` changes
nothing at all), and `submit_with_priority` leaves a record whose
`updated_at` is the operation time; but the default-queue substitution
modifies `queue` without touching `updated_at` (see the
counterexample). -/
theorem record_frame (t : TaskDefinition) (now : Int) (w e : String) (ser : Option String)
    (id : Nat) (nm dat : String) (p0 p : TaskPriority) (rc : RetryConfig)
    (ed : Option Nat) (q dq : String) :
    ((mark_started t now w).id = t.id ∧ (mark_started t now w).created_at = t.created_at ∧
      (mark_started t now w).updated_at = now) ∧
    ((mark_success t now ser).1.id = t.id ∧
      (mark_success t now ser).1.created_at = t.created_at ∧
      (mark_success t now ser).1.updated_at = now) ∧
    ((mark_failed t now e).id = t.id ∧ (mark_failed t now e).created_at = t.created_at ∧
      (mark_failed t now e).updated_at = now) ∧
    ((mark_retry t now).1.id = t.id ∧ (mark_retry t now).1.created_at = t.created_at ∧
      (mark_retry t now).1.updated_at = (if can_retry t then now else t.updated_at) ∧
      (if can_retry t then True else (mark_retry t now).1 = t)) ∧
    ((submitWithPriorityRecord id nm dat p0 rc ed q now p).id = id ∧
      (submitWithPriorityRecord id nm dat p0 rc ed q now p).created_at = now ∧
      (submitWithPriorityRecord id nm dat p0 rc ed q now p).updated_at = now ∧
      (submitWithPriorityRecord id nm dat p0 rc ed q now p).priority = p) ∧
    ((substituteDefaultQueue dq t).id = t.id ∧
      (substituteDefaultQueue dq t).created_at = t.created_at ∧
      (substituteDefaultQueue dq t).updated_at = t.updated_at) := by
  refine ⟨⟨rfl, rfl, rfl⟩, ?_, ⟨rfl, rfl, rfl⟩, ?_, ⟨rfl, rfl, rfl, rfl⟩, ?_⟩
  · cases ser with
    | none => exact ⟨rfl, rfl, rfl⟩
    | some s => exact ⟨rfl, rfl, rfl⟩
  · by_cases h : t.retry_count < t.retry_config.max_retries
    · have hc : can_retry t = true := by
        unfold can_retry
        exact decide_eq_true h
      rw [mark_retry_of_lt t now h, hc]
      refine ⟨rfl, rfl, ?_, ?_⟩
      · exact (if_pos rfl).symm
      · simp
    · have hc : can_retry t = false := by
        unfold can_retry
        exact decide_eq_false h
      have hge := Nat.le_of_not_lt h
      unfold mark_retry
      rw [if_pos hge, hc]
      refine ⟨rfl, rfl, ?_, ?_⟩
      · exact (if_neg (by simp)).symm
      · simp
  · unfold substituteDefaultQueue
    by_cases h : t.queue = ""
    · rw [if_pos h]
      exact ⟨rfl, rfl, rfl⟩
    · rw [if_neg h]
      exact ⟨rfl, rfl, rfl⟩

/-- C5: `requeue_task` has exactly the broker effect (state and,
modulo the discarded task id, return value) of
`submit_scheduled_task` when the record's `scheduled_at` is set, and
exactly that of `submit_task` when it is absent; in both cases the
`processing` set is left unchanged. -/
theorem requeue_effect (dq : String) (t : TaskDefinition) (b : Broker) :
    (requeue_task dq t b).1 =
      (if t.scheduled_at.isSome then (submit_scheduled_task dq t b).1
       else (submit_task dq t b).1) ∧
    (requeue_task dq t b).2 =
      (if t.scheduled_at.isSome then (submit_scheduled_task dq t b).2.map fun _ => ()
       else (submit_task dq t b).2.map fun _ => ()) ∧
    (requeue_task dq t b).1.processing = b.processing := by
  refine ⟨?_, ?_, ?_⟩ <;>
    unfold requeue_task <;>
    by_cases h : t.scheduled_at.isSome = true
  · rw [if_pos h, if_pos h]
  · rw [if_neg h, if_neg h]
  · rw [if_pos h, if_pos h]
  · rw [if_neg h, if_neg h]
  · rw [if_pos h]
    exact submit_scheduled_task_processing dq t b
  · rw [if_neg h]
    exact submit_task_processing dq t b

/-- C6: under the validity bounds (`hour < 24`, `minute < 60`,
`day ∈ [0,6]` for `Weekly`, u64 counts within i64 range),
`next_execution` agrees with the spec's per-variant table
`specNextExecution` on every variant and reference time. -/
theorem next_execution_matches_spec (e : ScheduleExpression) (t : Int)
    (h : validSchedule e = true) :
    next_execution e t = specNextExecution e t := by
  cases e with
  | Once u => rfl
  | Cron s => rfl
  | Delay s =>
      have hs : s < 2 ^ 63 := by simpa [validSchedule] using h
      simp only [next_execution, specNextExecution, toI64, if_pos hs]
  | EverySeconds s =>
      have hs : s < 2 ^ 63 := by simpa [validSchedule] using h
      simp only [next_execution, specNextExecution, toI64, if_pos hs]
  | EveryMinutes m =>
      have hs : m < 2 ^ 63 := by simpa [validSchedule] using h
      simp only [next_execution, specNextExecution, toI64, if_pos hs]
  | EveryHours n =>
      have hs : n < 2 ^ 63 := by simpa [validSchedule] using h
      simp only [next_execution, specNextExecution, toI64, if_pos hs]
  | Daily hh mm =>
      have hv : hh < 24 ∧ mm < 60 := by simpa [validSchedule] using h
      simp only [next_execution, specNextExecution, and_hms, if_pos hv]
      by_cases hb : startOfDay t + (hh : Int) * 3600 + (mm : Int) * 60 ≤ t
      · rw [if_pos hb, if_neg (not_lt.mpr hb)]
      · rw [if_neg hb, if_pos (lt_of_not_le hb)]
  | Weekly d hh mm =>
      have hv : d ≤ 6 ∧ hh < 24 ∧ mm < 60 := by simpa [validSchedule, and_assoc] using h
      have hc : num_days_from_sunday t < 7 := num_days_from_sunday_lt t
      have hdays : (if num_days_from_sunday t ≤ d then d - num_days_from_sunday t
          else 7 - (num_days_from_sunday t - d)) = (d + 7 - num_days_from_sunday t) % 7 := by
        by_cases hle : num_days_from_sunday t ≤ d
        · rw [if_pos hle]
          omega
        · rw [if_neg hle]
          omega
      have hhm : hh < 24 ∧ mm < 60 := ⟨hv.2.1, hv.2.2⟩
      simp only [next_execution, specNextExecution, and_hms, if_pos hhm, hdays]
      have harith : startOfDay t + (hh : Int) * 3600 + (mm : Int) * 60 +
          (((d + 7 - num_days_from_sunday t) % 7 : Nat) : Int) * 86400 =
          startOfDay t + (((d + 7 - num_days_from_sunday t) % 7 : Nat) : Int) * 86400 +
          (hh : Int) * 3600 + (mm : Int) * 60 := by ring
      rw [harith]
      by_cases hb : startOfDay t + (((d + 7 - num_days_from_sunday t) % 7 : Nat) : Int) * 86400 +
          (hh : Int) * 3600 + (mm : Int) * 60 ≤ t
      · rw [if_pos hb, if_pos hb]
        norm_num
      · rw [if_neg hb, if_neg hb]

/-- Witness for `next_execution_matches_spec`: a `Weekly` schedule
(Thursday 01:02 UTC) evaluated from an instant on the epoch Thursday,
after the scheduled minute has passed. -/
theorem next_execution_matches_spec_witness :
    validSchedule (ScheduleExpression.Weekly 4 1 2) = true ∧
    next_execution (ScheduleExpression.Weekly 4 1 2) 50000 =
      specNextExecution (ScheduleExpression.Weekly 4 1 2) 50000 :=
  ⟨by decide, next_execution_matches_spec (ScheduleExpression.Weekly 4 1 2) 50000 (by decide)⟩

/-- C6 counterexample: `EverySeconds(2^64 - 10)` — a representable u64
count, constructible through `schedule_every_seconds` — at reference
time 0.  The source casts the count with `as i64`, which wraps
`2^64 - 10` to `-10`, so `next_execution` returns `t - 10` instead of
the claimed `t + n`. -/
theorem next_execution_overflow_cex :
    next_execution (ScheduleExpression.EverySeconds (2 ^ 64 - 10)) 0 = some (-10) ∧
    next_execution (ScheduleExpression.EverySeconds (2 ^ 64 - 10)) 0 ≠
      some (0 + ((2 ^ 64 - 10 : Nat) : Int)) := by
  decide

/-- C7: `mark_executed` stamps `last_run`, increments `run_count`,
increments `failure_count` exactly on failure, recomputes `next_run`
from the firing time for a recurring schedule (leaving `enabled`
alone), and sets `next_run = None` and `enabled = false` for a
non-recurring one; non-recurring is exactly `Once` or `Delay`. -/
theorem mark_executed_spec (j : ScheduledJob) (now : Int) (success : Bool) :
    (mark_executed j now success).last_run = some now ∧
    (mark_executed j now success).run_count = j.run_count + 1 ∧
    (mark_executed j now success).failure_count =
      (if success then j.failure_count else j.failure_count + 1) ∧
    (mark_executed j now success).next_run =
      (if is_recurring j.schedule then next_execution j.schedule now else none) ∧
    (mark_executed j now success).enabled =
      (if is_recurring j.schedule then j.enabled else false) ∧
    (is_recurring j.schedule = false ↔ isOnceOrDelay j.schedule = true) := by
  have hiff : is_recurring j.schedule = false ↔ isOnceOrDelay j.schedule = true := by
    cases j.schedule <;> simp [is_recurring, isOnceOrDelay]
  by_cases hb : is_recurring j.schedule = true
  · refine ⟨?_, ?_, ?_, ?_, ?_, hiff⟩ <;> simp [mark_executed, if_pos hb]
  · refine ⟨?_, ?_, ?_, ?_, ?_, hiff⟩ <;> simp [mark_executed, if_neg hb]

/-- C4 counterexample: submitting a record whose queue name is empty
replaces `queue` with the default queue but leaves `updated_at` exactly
as it was (here its creation time 0), so a submission performed at any
other time (say 5) changes a field without setting `updated_at` to the
time of that change. -/
theorem submit_queue_substitution_cex :
    (substituteDefaultQueue "default" emptyQueueTask).queue = "default" ∧
    emptyQueueTask.queue ≠ "default" ∧
    (substituteDefaultQueue "default" emptyQueueTask).updated_at = emptyQueueTask.updated_at ∧
    emptyQueueTask.updated_at = 0 ∧
    (substituteDefaultQueue "default" emptyQueueTask).updated_at ≠ 5 := by
  decide

end DTQ

namespace DTQ

/-- Helper: the polling loop does not return on a non-terminal status. -/
theorem wait_step_nonterminal (tid : Nat) (td : TaskDefinition)
    (h : nonTerminal td.status = true) : wait_step tid (some td) = none := by
  unfold wait_step
  cases hs : td.status <;> simp [nonTerminal, hs] at h ⊢

/-- Helper: the polling loop keeps polling as long as every fetched
record is non-terminal. -/
theorem waitPolls_nonterminal (tid : Nat) (fetch : Nat → Option TaskDefinition) :
    ∀ (n i : Nat),
      (∀ k, k < n → ((fetch (i + k)).any fun td => nonTerminal td.status) = true) →
      waitPolls tid fetch i n = none := by
  intro n
  induction n with
  | zero =>
      intro i _
      rfl
  | succ m ih =>
      intro i hall
      have h0 := hall 0 (Nat.succ_pos m)
      rw [Nat.add_zero] at h0
      unfold waitPolls
      cases hf : fetch i with
      | none =>
          rw [hf] at h0
          simp [Option.any] at h0
      | some td =>
          rw [hf] at h0
          simp [Option.any] at h0
          rw [wait_step_nonterminal tid td h0]
          exact ih (i + 1) fun k hk => by
            have hx := hall (k + 1) (Nat.succ_lt_succ hk)
            have hadd : i + (k + 1) = i + 1 + k := by omega
            rwa [hadd] at hx

/-- C8: if `mark_success` succeeds on an encodable value and `get_task`
then returns the resulting record, `wait_for_result` returns at its
first poll with exactly the original value decoded back; and a record
in any non-terminal state (Pending, Scheduled, Running, Retrying) makes
the loop poll again rather than return, for as long as only
non-terminal records are fetched. -/
theorem wait_for_result_roundtrip {α : Type} (enc : α → Option String)
    (dec : String → Option α) (hround : ∀ a s, enc a = some s → dec s = some a)
    (t : TaskDefinition) (now : Int) (v : α)
    (hok : (mark_success t now (enc v)).2 = none)
    (fetch : Nat → Option TaskDefinition)
    (hfetch : fetch 0 = some (mark_success t now (enc v)).1)
    (fuel : Nat) (hfuel : 0 < fuel) :
    wait_for_result dec t.id fetch fuel = some (Except.ok v) ∧
    (∀ td, nonTerminal td.status = true → wait_step t.id (some td) = none) ∧
    (∀ fetch2 n,
        (∀ i, i < n → ((fetch2 i).any fun td => nonTerminal td.status) = true) →
        waitPolls t.id fetch2 0 n = none) := by
  refine ⟨?_, fun td h => wait_step_nonterminal t.id td h,
    fun fetch2 n hn => waitPolls_nonterminal t.id fetch2 n 0 (fun k hk => by
      simpa using hn k hk)⟩
  cases he : enc v with
  | none =>
      rw [he] at hok
      simp [mark_success] at hok
  | some s =>
      have hdec := hround v s he
      rw [he] at hfetch
      cases fuel with
      | zero => exact absurd hfuel (by simp)
      | succ m =>
          unfold wait_for_result waitPolls
          rw [hfetch]
          simp [mark_success, wait_step, hdec]

/-- Witness for `wait_for_result_roundtrip`: the identity codec on
strings, value `"five"`, one poll. -/
theorem wait_for_result_roundtrip_witness :
    (mark_success samplePendingTask 3 (some "five")).2 = none ∧
    wait_for_result (fun s => some s) samplePendingTask.id
      (fun _ => some (mark_success samplePendingTask 3 (some "five")).1) 1 =
      some (Except.ok "five") := by
  have h := wait_for_result_roundtrip (fun a => some a) (fun s => some s)
    (fun a s hx => by cases hx; rfl) samplePendingTask 3 "five" (by decide)
    (fun _ => some (mark_success samplePendingTask 3 (some "five")).1) rfl 1 (by decide)
  exact ⟨by decide, h.1⟩

/-- C9: a `Success` record with `result = None` makes `wait_for_result`
return immediately (no divergence) with the `TaskExecution` error
"Task completed but no result found"; a missing record makes it return
`TaskNotFound` carrying the rendered task id. -/
theorem wait_for_result_missing (tid : Nat) (td : TaskDefinition)
    (h1 : td.status = TaskStatus.Success) (h2 : td.result = none)
    (fetch : Nat → Option TaskDefinition) (hfetch : fetch 0 = some td)
    (fuel : Nat) (hfuel : 0 < fuel) :
    wait_step tid (some td) =
      some (Except.error (TaskError.TaskExecution "Task completed but no result found")) ∧
    waitPolls tid fetch 0 fuel =
      some (Except.error (TaskError.TaskExecution "Task completed but no result found")) ∧
    wait_step tid none = some (Except.error (TaskError.TaskNotFound (toString tid))) := by
  have hstep : wait_step tid (some td) =
      some (Except.error (TaskError.TaskExecution "Task completed but no result found")) := by
    simp [wait_step, h1, h2]
  refine ⟨hstep, ?_, rfl⟩
  cases fuel with
  | zero => exact absurd hfuel (by simp)
  | succ m =>
      unfold waitPolls
      rw [hfetch, hstep]

/-- Witness for `wait_for_result_missing` at a concrete Success record
with no result. -/
theorem wait_for_result_missing_witness :
    wait_step 42 (some successNoResultTask) =
      some (Except.error (TaskError.TaskExecution "Task completed but no result found")) ∧
    wait_step 42 none = some (Except.error (TaskError.TaskNotFound (toString (42 : Nat)))) := by
  have h := wait_for_result_missing 42 successNoResultTask (by decide) (by decide)
    (fun _ => some successNoResultTask) rfl 1 (by decide)
  exact ⟨h.1, h.2.2⟩

/-- C10: firing a job whose schedule is non-recurring removes it from
the scheduler's jobs map entirely: the tick's per-job update equals a
plain removal of the job's id, a subsequent `get_job` lookup finds
nothing, and `list_jobs` and the `get_stats` job count see only the
remaining entries. -/
theorem nonrecurring_job_removed (jobs : JobsMap) (j : ScheduledJob) (now : Int)
    (success : Bool) (h : is_recurring j.schedule = false) :
    processJobUpdate jobs j now success = removeJob jobs j.id ∧
    lookupJob (processJobUpdate jobs j now success) j.id = none ∧
    listJobs (processJobUpdate jobs j now success) = listJobs (removeJob jobs j.id) ∧
    schedulerTotalJobs (processJobUpdate jobs j now success) =
      schedulerTotalJobs (removeJob jobs j.id) := by
  have heq : processJobUpdate jobs j now success = removeJob jobs j.id := by
    simp [processJobUpdate, mark_executed, h]
  have hlook : lookupJob (removeJob jobs j.id) j.id = none := by
    unfold lookupJob removeJob
    have hfind : (List.filter (fun p => p.1 != j.id) jobs).find? (fun p => p.1 == j.id) = none := by
      rw [List.find?_eq_none]
      intro p hp
      have hmem := (List.mem_filter.mp hp).2
      simp at hmem ⊢
      exact hmem
    rw [hfind]
    rfl
  exact ⟨heq, by rw [heq]; exact hlook, by rw [heq], by rw [heq]⟩

/-- Witness for `nonrecurring_job_removed`: a singleton map holding a
`Once` job; after its firing the lookup under its id is empty. -/
theorem nonrecurring_job_removed_witness :
    is_recurring sampleOnceJob.schedule = false ∧
    lookupJob (processJobUpdate [(7, sampleOnceJob)] sampleOnceJob 100 true) 7 = none := by
  have h := nonrecurring_job_removed [(7, sampleOnceJob)] sampleOnceJob 100 true (by decide)
  exact ⟨by decide, h.2.1⟩

end DTQ
